import Mathlib

/-!
Verification development for the MiniMax-MCP-JS repository.

Shallow embedding of the configuration resolver (`src/config/ConfigManager.ts`),
the video-generation polling loop (`src/api/video.ts`, `VideoAPI.generateVideo`),
the REST dispatcher's retry wrappers (`src/mcp-rest-server.ts`,
`MCPRestServer.handleTextToAudio` / `handleTextToImage` / `handleVoiceClone`),
the image-generation validation (`src/api/image.ts`), and the SSE connection
teardown (`src/mcp-sse-server.ts`, `MCPSSEServer.closeConnection`).

JavaScript conventions used throughout the embedding:
* a possibly-`undefined` string is `Option String`; `none` models `undefined`;
* JS truthiness on strings (`undefined` and `""` are falsy) is `jsTruthyStr`;
* a JS number that may be `NaN` is `JSNum := Option Int` (`none` models `NaN`);
  truthiness on numbers (`NaN` and `0` falsy) is `jsTruthyNum`;
* exceptions are `Except String` values; `try`/`catch` becomes a `match` on
  the `Except`; a caught-and-swallowed exception becomes a discarded value.
-/

namespace MiniMaxMCP

/-- A JS number that may be `NaN`: `none` models `NaN`. -/
abbrev JSNum := Option Int

/-- JS truthiness of a possibly-undefined string: `undefined` and `""` are falsy. -/
def jsTruthyStr : Option String → Bool
  | none => false
  | some s => s ≠ ""

/-- JS truthiness of a possibly-undefined, possibly-`NaN` number:
`undefined`, `NaN` and `0` are falsy. -/
def jsTruthyNum : Option JSNum → Bool
  | none => false
  | some none => false
  | some (some n) => n ≠ 0

/-- Model of JS `parseInt(s, 10)`: skip leading whitespace, optional sign,
parse leading decimal digits; `NaN` (= `none`) when no digits are found. -/
def parseIntTS (s : String) : JSNum :=
  let chars := s.toList.dropWhile (fun c => c.isWhitespace)
  let (neg, chars) : Bool × List Char :=
    match chars with
    | '-' :: rest => (true, rest)
    | '+' :: rest => (false, rest)
    | rest => (false, rest)
  let digits := chars.takeWhile (fun c => c.isDigit)
  if digits.isEmpty then none
  else
    let v : Int := digits.foldl (fun acc c => acc * 10 + (c.toNat - '0'.toNat)) 0
    some (if neg then -v else v)

/-- Model of JS `String.prototype.trim`: strip leading and trailing
whitespace. -/
def trimTS (s : String) : String :=
  String.mk (((s.toList.dropWhile Char.isWhitespace).reverse.dropWhile
    Char.isWhitespace).reverse)

/-- Bool-valued prefix test on character lists. -/
def charsPrefix : List Char → List Char → Bool
  | [], _ => true
  | _ :: _, [] => false
  | a :: as, b :: bs => a = b && charsPrefix as bs

/-- Bool-valued containment test on character lists (JS `String.includes`). -/
def charsContains (hay pat : List Char) : Bool :=
  if charsPrefix pat hay then true
  else
    match hay with
    | [] => false
    | _ :: rest => charsContains rest pat

/-- JS `message.includes(pattern)`. -/
def strIncludes (s pat : String) : Bool := charsContains s.toList pat.toList

/-- JS `s.startsWith(pre)`, on the character lists (kernel-computable,
unlike `String.startsWith`). -/
def strStartsWith (s pre : String) : Bool := charsPrefix pre.toList s.toList

/-- `s.substring(n)`: drop the first `n` characters. -/
def strDrop (s : String) (n : Nat) : String := String.mk (s.toList.drop n)

/-! ### Constants

The repository's `src/const/index.ts` is not part of the provided sources;
only the constants' names and usages appear in the provided files.  The
transport-mode strings are fixed by `ConfigManager.isValidTransportMode`
(`['stdio', 'rest', 'sse']`) and the resource-mode string by the README
(`url` | `local`).  The remaining values are modelled from the spec/README;
no theorem below depends on their exact values. -/

/-- Modelled from the spec: default upstream endpoint (`DEFAULT_API_HOST` in
`src/const/index.ts`, which is not among the provided sources). -/
def DEFAULT_API_HOST : String := "https://api.minimaxi.chat"

/-- Modelled from the spec: default server port (`DEFAULT_SERVER_PORT`). -/
def DEFAULT_SERVER_PORT : Int := 9593

/-- Modelled from the spec: default server endpoint (`DEFAULT_SERVER_ENDPOINT`). -/
def DEFAULT_SERVER_ENDPOINT : String := "/rest"

def RESOURCE_MODE_URL : String := "url"
def TRANSPORT_MODE_STDIO : String := "stdio"
def TRANSPORT_MODE_REST : String := "rest"
def TRANSPORT_MODE_SSE : String := "sse"

/-- Modelled from the spec: validation error message for a missing prompt
(`ERROR_PROMPT_REQUIRED` in `src/const/index.ts`); theorems only use that it
is the message thrown by the prompt validation. -/
def ERROR_PROMPT_REQUIRED : String := "Prompt is required"

/-! ### Configuration data model (`src/types/index.ts` via its uses)

The resolved `Config` always carries a `server` object (the base
configuration in `getConfig` creates one), but because the request-level
layer is merged with `Object.assign` — which replaces the `server` object
wholesale — individual server sub-fields of the *resolved* configuration can
end up `undefined`.  The server object is therefore modelled with optional
fields. -/

/-- A server descriptor object.  Each field is optional: an object built by
`extractConfigFromMetaAuth` contains only the sub-fields that were supplied,
and `Object.assign` can install such a partial object as `config.server`. -/
structure ServerState where
  port : Option JSNum := none
  endpoint : Option String := none
  mode : Option String := none
  deriving Repr, DecidableEq

/-- The resolved configuration produced by `ConfigManager.getConfig`.
`basePath` starts as `process.env[ENV_MINIMAX_MCP_BASE_PATH]!`, which is
`undefined` when the variable is unset, hence `Option String`. -/
structure Config where
  apiKey : String
  apiHost : String
  basePath : Option String
  resourceMode : String
  server : ServerState
  deriving Repr, DecidableEq

/-- A `Partial<Config>`: a JS object that may or may not carry each key.
`none` models an absent key (`Object.assign` skips it); `some v` models a
present key (`Object.assign` copies it regardless of truthiness). -/
structure ConfigPartial where
  apiKey : Option String := none
  apiHost : Option String := none
  basePath : Option String := none
  resourceMode : Option String := none
  server : Option ServerState := none
  deriving Repr, DecidableEq

/-- `Object.assign(config, p)` restricted to the `Config` keys: every key
present in `p` overwrites the corresponding field of `config`; in particular
a present `server` key replaces the whole server object. -/
def objectAssign (c : Config) (p : ConfigPartial) : Config where
  apiKey := p.apiKey.getD c.apiKey
  apiHost := p.apiHost.getD c.apiHost
  basePath := if p.basePath.isSome then p.basePath else c.basePath
  resourceMode := p.resourceMode.getD c.resourceMode
  server := p.server.getD c.server

/-- `ConfigManager.isValidTransportMode`. -/
def isValidTransportMode (mode : String) : Bool :=
  mode = "stdio" || mode = "rest" || mode = "sse"

/-- The base configuration built at the top of `ConfigManager.getConfig`
(lowest priority), with `DesktopPath = process.env[ENV_MINIMAX_MCP_BASE_PATH]!`. -/
def baseConfig (desktopPath : Option String) : Config where
  apiKey := ""
  apiHost := DEFAULT_API_HOST
  basePath := desktopPath
  resourceMode := RESOURCE_MODE_URL
  server :=
    { port := some (some DEFAULT_SERVER_PORT)
      endpoint := some DEFAULT_SERVER_ENDPOINT
      mode := some TRANSPORT_MODE_STDIO }

/-! ### Environment layer (`ConfigManager.applyEnvVars`)

The process environment is modelled by the seven variables the function
reads.  The TS function is a sequence of independent single-field guarded
assignments; it is written here field-wise, which is the same function.
The `if (config.server)` guard is always true: the base configuration
installs a server object and every layer either keeps or replaces it with
another object. -/

/-- The environment variables read by `ConfigManager`.  Field names stand
for `ENV_MINIMAX_API_KEY`, `ENV_MINIMAX_API_HOST`, `ENV_MINIMAX_MCP_BASE_PATH`,
`ENV_RESOURCE_MODE`, `ENV_SERVER_PORT`, `ENV_SERVER_ENDPOINT`,
`ENV_TRANSPORT_MODE`. -/
structure Env where
  apiKey : Option String := none
  apiHost : Option String := none
  basePath : Option String := none
  resourceMode : Option String := none
  serverPort : Option String := none
  serverEndpoint : Option String := none
  transportMode : Option String := none
  deriving Repr, DecidableEq

/-- `ConfigManager.applyEnvVars`: each variable, when truthy, overwrites its
field; the transport mode additionally passes `isValidTransportMode`. -/
def applyEnvVars (env : Env) (c : Config) : Config where
  apiKey := if jsTruthyStr env.apiKey then env.apiKey.getD "" else c.apiKey
  apiHost := if jsTruthyStr env.apiHost then env.apiHost.getD "" else c.apiHost
  basePath := if jsTruthyStr env.basePath then env.basePath else c.basePath
  resourceMode := if jsTruthyStr env.resourceMode then env.resourceMode.getD "" else c.resourceMode
  server :=
    { port := if jsTruthyStr env.serverPort then some (parseIntTS (env.serverPort.getD ""))
              else c.server.port
      endpoint := if jsTruthyStr env.serverEndpoint then env.serverEndpoint
                  else c.server.endpoint
      mode := if jsTruthyStr env.transportMode ∧ isValidTransportMode (env.transportMode.getD "")
              then env.transportMode else c.server.mode }

/-! ### Command-line layer (`ConfigManager.parseCliArgs` / `findCliArg` /
`applyCliArgs`) -/

/-- A JS plain-object record from string keys to string values. -/
def ArgsRecord := String → Option String

/-- The empty record `{}`. -/
def ArgsRecord.empty : ArgsRecord := fun _ => none

/-- `record[key] = value`. -/
def ArgsRecord.set (r : ArgsRecord) (k v : String) : ArgsRecord :=
  fun q => if q = k then some v else r q

/-- The loop body of `ConfigManager.parseCliArgs`: `--key value` pairs, a
`--key` followed by another `--…` (or nothing) becomes `key = "true"`;
non-flag tokens are skipped. -/
def parseCliArgsAux : List String → ArgsRecord → ArgsRecord
  | [], r => r
  | [a], r => if strStartsWith a "--" then r.set (strDrop a 2) "true" else r
  | a :: b :: rest, r =>
    if strStartsWith a "--" then
      if strStartsWith b "--" then parseCliArgsAux (b :: rest) (r.set (strDrop a 2) "true")
      else parseCliArgsAux rest (r.set (strDrop a 2) b)
    else parseCliArgsAux (b :: rest) r

/-- `ConfigManager.parseCliArgs` on the given argument vector
(`process.argv.slice(2)`). -/
def parseCliArgs (argv : List String) : ArgsRecord :=
  parseCliArgsAux argv ArgsRecord.empty

/-- `name.replace(/([A-Z])/g, '-$1').toLowerCase()` on the character list. -/
def kebabChars : List Char → List Char
  | [] => []
  | c :: rest =>
    if c.isUpper then '-' :: c.toLower :: kebabChars rest
    else c.toLower :: kebabChars rest

/-- Kebab-case conversion used by `findCliArg`. -/
def kebabCase (name : String) : String := String.mk (kebabChars name.toList)

/-- The camel-casing replacement in `findCliArg` (regex `-([a-z])`, global,
each match replaced by the uppercased letter) on the character list: a
hyphen immediately followed by a lowercase letter is replaced by the
uppercased letter. -/
def camelChars : List Char → List Char
  | [] => []
  | '-' :: c :: rest =>
    if c.isLower then c.toUpper :: camelChars rest
    else '-' :: camelChars (c :: rest)
  | c :: rest => c :: camelChars rest

/-- Camel-case conversion used by `findCliArg`. -/
def camelCase (name : String) : String := String.mk (camelChars name.toList)

/-- JS `a || b` on possibly-undefined strings: the left operand wins when
truthy. -/
def jsOrStr (a b : Option String) : Option String :=
  if jsTruthyStr a then a else b

/-- `ConfigManager.findCliArg`:
`args[name] || args[kebabCase] || args[camelCase]`. -/
def findCliArg (args : ArgsRecord) (name : String) : Option String :=
  jsOrStr (args name) (jsOrStr (args (kebabCase name)) (args (camelCase name)))

/-- `ConfigManager.applyCliArgs`: guarded single-field overwrites from
`findCliArg`, written field-wise (the TS sequence of independent `if`s). -/
def applyCliArgs (argv : List String) (c : Config) : Config :=
  let args := parseCliArgs argv
  let apiKey := findCliArg args "api-key"
  let apiHost := findCliArg args "api-host"
  let basePath := findCliArg args "base-path"
  let resourceMode := findCliArg args "resource-mode"
  let port := findCliArg args "port"
  let endpoint := findCliArg args "endpoint"
  let mode := findCliArg args "mode"
  { apiKey := if jsTruthyStr apiKey then apiKey.getD "" else c.apiKey
    apiHost := if jsTruthyStr apiHost then apiHost.getD "" else c.apiHost
    basePath := if jsTruthyStr basePath then basePath else c.basePath
    resourceMode := if jsTruthyStr resourceMode then resourceMode.getD "" else c.resourceMode
    server :=
      { port := if jsTruthyStr port then some (parseIntTS (port.getD "")) else c.server.port
        endpoint := if jsTruthyStr endpoint then endpoint else c.server.endpoint
        mode := if jsTruthyStr mode ∧ isValidTransportMode (mode.getD "")
                then mode else c.server.mode } }

/-! ### Configuration-file layer (`ConfigManager.applyConfigFile` /
`mergeConfig`)

`applyConfigFile` iterates over candidate paths; for each it checks
existence, reads and JSON-parses the content inside a `try`, merges on
success and `break`s; any exception is caught and the loop continues.  A
candidate is modelled as `Option (Except Unit ConfigPartial)`:
`none` = file absent (`existsSync` false), `some (.error ())` = the read or
`JSON.parse` threw (empty or malformed file), `some (.ok p)` = parsed
partial configuration.  A parsed JSON value that is not an object behaves
as the all-absent partial. -/

/-- One configuration-file candidate, as seen through `existsSync` /
`readFileSync` / `JSON.parse`. -/
abbrev FileCandidate := Option (Except Unit ConfigPartial)

/-- `ConfigManager.mergeConfig`: truthiness-guarded field-by-field merge,
server sub-fields individually, mode only when valid. -/
def mergeConfig (c : Config) (source : ConfigPartial) : Config :=
  let c' : Config :=
    { apiKey := if jsTruthyStr source.apiKey then source.apiKey.getD "" else c.apiKey
      apiHost := if jsTruthyStr source.apiHost then source.apiHost.getD "" else c.apiHost
      basePath := if jsTruthyStr source.basePath then source.basePath else c.basePath
      resourceMode :=
        if jsTruthyStr source.resourceMode then source.resourceMode.getD "" else c.resourceMode
      server := c.server }
  match source.server with
  | none => c'
  | some s =>
    { c' with server :=
      { port := if jsTruthyNum s.port then s.port else c.server.port
        endpoint := if jsTruthyStr s.endpoint then s.endpoint else c.server.endpoint
        mode := if jsTruthyStr s.mode ∧ isValidTransportMode (s.mode.getD "")
                then s.mode else c.server.mode } }

/-- `ConfigManager.applyConfigFile`: first candidate that exists and parses
is merged (then `break`); absent or throwing candidates are skipped (the
`catch` swallows the exception and the loop continues). -/
def applyConfigFile : List FileCandidate → Config → Config
  | [], c => c
  | none :: rest, c => applyConfigFile rest c
  | some (.error _) :: rest, c => applyConfigFile rest c
  | some (.ok p) :: _, c => mergeConfig c p

/-! ### `ConfigManager.getConfig` -/

/-- The ambient process state read by `getConfig`: environment, launch
arguments (`process.argv.slice(2)`) and the configuration-file candidates. -/
structure World where
  env : Env := {}
  argv : List String := []
  configFile : List FileCandidate := []

/-- `ConfigManager.getConfig(requestConfig, defaultConfig)`: base
configuration, then `Object.assign` of `defaultConfig`, then file,
environment and command-line layers, then `Object.assign` of the
request-level configuration (highest priority). -/
def getConfig (requestConfig defaultConfig : ConfigPartial) (w : World) : Config :=
  let config := baseConfig w.env.basePath
  let config := objectAssign config defaultConfig
  let config := applyConfigFile w.configFile config
  let config := applyEnvVars w.env config
  let config := applyCliArgs w.argv config
  objectAssign config requestConfig

/-! ### `ConfigManager.extractConfigFromMetaAuth` -/

/-- The `meta.auth` carrier object: the keys the extractor reads, each
possibly absent.  Every value arrives as a string. -/
structure MetaAuth where
  api_key : Option String := none
  api_host : Option String := none
  base_path : Option String := none
  resource_mode : Option String := none
  apiKey : Option String := none
  apiHost : Option String := none
  basePath : Option String := none
  resourceMode : Option String := none
  server_port : Option String := none
  server_endpoint : Option String := none
  server_mode : Option String := none
  serverPort : Option String := none
  serverEndpoint : Option String := none
  serverMode : Option String := none
  deriving Repr, DecidableEq

/-- Number of keys set on the extracted partial (JS
`Object.keys(config).length`). -/
def ConfigPartial.keyCount (p : ConfigPartial) : Nat :=
  (if p.apiKey.isSome then 1 else 0) + (if p.apiHost.isSome then 1 else 0) +
  (if p.basePath.isSome then 1 else 0) + (if p.resourceMode.isSome then 1 else 0) +
  (if p.server.isSome then 1 else 0)

/-- `ConfigManager.extractConfigFromMetaAuth`: underscore keys first, then
camel-case keys (which therefore win when both are present); a `server`
object is attached only when at least one server sub-field was supplied;
`undefined` is returned when nothing was extracted. -/
def extractConfigFromMetaAuth (m : MetaAuth) : Option ConfigPartial :=
  let pick (under camel : Option String) : Option String :=
    if jsTruthyStr camel then camel else if jsTruthyStr under then under else none
  let config : ConfigPartial :=
    { apiKey := pick m.api_key m.apiKey
      apiHost := pick m.api_host m.apiHost
      basePath := pick m.base_path m.basePath
      resourceMode := pick m.resource_mode m.resourceMode
      server := none }
  let port : Option JSNum :=
    if jsTruthyStr m.serverPort then some (parseIntTS (m.serverPort.getD ""))
    else if jsTruthyStr m.server_port then some (parseIntTS (m.server_port.getD ""))
    else none
  let endpoint : Option String :=
    if jsTruthyStr m.serverEndpoint then m.serverEndpoint
    else if jsTruthyStr m.server_endpoint then m.server_endpoint
    else none
  let mode : Option String :=
    if jsTruthyStr m.serverMode ∧ isValidTransportMode (m.serverMode.getD "")
    then m.serverMode
    else if jsTruthyStr m.server_mode ∧ isValidTransportMode (m.server_mode.getD "")
    then m.server_mode
    else none
  let hasServerConfig := port.isSome || endpoint.isSome || mode.isSome
  let config :=
    if hasServerConfig then
      { config with server := some { port := port, endpoint := endpoint, mode := mode } }
    else config
  if config.keyCount > 0 then some config else none


/-! ### Per-field resolution rule (modelled from the spec)

`overrideChain` is the specification's resolution invariant, written from
the spec's words: for each field, walk the layers from highest to lowest
precedence and take the first defined value, falling back to the default.
The amended C1 theorem compares `getConfig` against this rule. -/

/-- Modelled from the spec: first defined value in a high-to-low candidate
list, else the fallback. -/
def overrideChain {α : Type} : List (Option α) → α → α
  | [], d => d
  | some v :: _, _ => v
  | none :: rest, d => overrideChain rest d

/-- The value a truthiness-guarded layer defines for a string field:
`none` when the layer's entry is absent or falsy. -/
def truthyOpt (o : Option String) : Option String :=
  if jsTruthyStr o then o else none

/-- The partial configuration contributed by the configuration-file layer:
the first candidate that exists and parses (the one `applyConfigFile`
merges before `break`ing). -/
def fileLayer : List FileCandidate → Option ConfigPartial
  | [] => none
  | none :: rest => fileLayer rest
  | some (.error _) :: rest => fileLayer rest
  | some (.ok p) :: _ => some p

/-- The value the launch-argument layer defines for the named key. -/
def cliCandidate (argv : List String) (name : String) : Option String :=
  truthyOpt (findCliArg (parseCliArgs argv) name)

/-- The transport mode a layer defines: present, truthy and valid. -/
def modeCandidate (o : Option String) : Option (Option String) :=
  if jsTruthyStr o ∧ isValidTransportMode (o.getD "") then some o else none

/-! ### Video generation polling (`src/api/video.ts`, `VideoAPI.generateVideo`)

The loop constants are literal in the source: `maxRetries = 30`,
`retryInterval = 20` (seconds).  A status response is
`{ status?: string, file_id?: string }`; network responses are supplied as
explicit data, indexed by poll number for the status query. -/

/-- `maxRetries` in `VideoAPI.generateVideo` (line 69). -/
def videoMaxRetries : Nat := 30

/-- `retryInterval` in `VideoAPI.generateVideo` (line 70), in seconds. -/
def videoRetryInterval : Nat := 20

/-- A response to `/v1/query/video_generation`. -/
structure StatusResp where
  status : Option String := none
  file_id : Option String := none
  deriving Repr, DecidableEq

/-- Error message for status `Fail` (line 78). -/
def videoFailMsg (taskId : String) : String :=
  "Video generation task failed, task ID: " ++ taskId

/-- Error message for `Success` with a falsy `file_id` (line 84). -/
def videoMissingFileIdMsg (taskId : String) : String :=
  "File ID missing in success response, task ID: " ++ taskId

/-- Error message thrown after the loop when no `file_id` was obtained
(line 92): the polling-ceiling timeout. -/
def videoTimeoutMsg (taskId : String) : String :=
  "Failed to get file ID, task ID: " ++ taskId

/-- Trace of one run of the polling loop: the outcome, the number of status
queries issued, and the number of 20-second sleeps performed. -/
structure PollTrace where
  /-- `.ok (some fid)`: loop `break` with a truthy `file_id`;
  `.ok none`: loop exhausted without a terminal status;
  `.error msg`: a throw inside the loop. -/
  result : Except String (Option String)
  polls : Nat
  sleeps : Nat
  deriving Repr

/-- The `for (let attempt = 0; attempt < maxRetries; attempt++)` loop of
`VideoAPI.generateVideo` (lines 72–89), from the given attempt index:
query status; `Fail` throws; `Success` breaks with the `file_id` when
truthy and throws otherwise; any other status sleeps 20 s and continues. -/
def videoPollFrom (statusAt : Nat → StatusResp) (taskId : String) (attempt : Nat) :
    PollTrace :=
  if h : attempt < videoMaxRetries then
    let r := statusAt attempt
    if r.status = some "Fail" then
      ⟨.error (videoFailMsg taskId), 1, 0⟩
    else if r.status = some "Success" then
      if jsTruthyStr r.file_id then ⟨.ok r.file_id, 1, 0⟩
      else ⟨.error (videoMissingFileIdMsg taskId), 1, 0⟩
    else
      let rest := videoPollFrom statusAt taskId (attempt + 1)
      ⟨rest.result, rest.polls + 1, rest.sleeps + 1⟩
  else ⟨.ok none, 0, 0⟩
termination_by videoMaxRetries - attempt
decreasing_by omega

/-- The complete wait-for-completion phase (loop plus the post-loop
`if (!fileId) throw` at lines 91–93), returning the obtained `file_id` or
the error, together with the poll/sleep counts. -/
def awaitVideoCompletion (statusAt : Nat → StatusResp) (taskId : String) :
    Except String String × Nat × Nat :=
  let t := videoPollFrom statusAt taskId 0
  match t.result with
  | .ok (some fid) => (.ok fid, t.polls, t.sleeps)
  | .ok none => (.error (videoTimeoutMsg taskId), t.polls, t.sleeps)
  | .error e => (.error e, t.polls, t.sleeps)

/-- A poll response that is neither `Fail` nor `Success`: the loop sleeps
and polls again. -/
def nonTerminalStatus (r : StatusResp) : Prop :=
  r.status ≠ some "Fail" ∧ r.status ≠ some "Success"

/-- The external responses consumed by one `generateVideo` call. -/
structure VideoDeps where
  /-- `response?.task_id` of the submission call. -/
  submitTaskId : Option String := none
  /-- Status responses, indexed by poll number. -/
  statusAt : Nat → StatusResp := fun _ => {}
  /-- `fileResponse?.file?.download_url` of the retrieval call for the given
  file id; `none` when the retrieval call is never issued in the run being
  described (irrelevant then). -/
  retrieve : String → Option String := fun _ => none
  /-- `this.api.getResourceMode()`. -/
  resourceMode : String := RESOURCE_MODE_URL
  /-- Whether the download-and-save step (local mode) succeeds, and the
  output path produced by `buildOutputFile`. -/
  downloadOk : Bool := true
  outputPath : String := ""

/-- Result value of `generateVideo`. -/
inductive VideoResult where
  /-- async mode: `{ task_id }`. -/
  | taskOnly (taskId : String)
  /-- url mode: `{ video_url, task_id }`. -/
  | videoUrl (url taskId : String)
  /-- local mode: `{ video_path, task_id }`. -/
  | videoPath (path taskId : String)
  deriving Repr, DecidableEq

/-- `VideoAPI.generateVideo`: prompt validation, submission, polling loop,
retrieval, and url/local delivery.  Returns the result or thrown error plus
the status-poll and sleep counts of the run. -/
def generateVideo (prompt : Option String) (asyncMode : Bool) (d : VideoDeps) :
    Except String VideoResult × Nat × Nat :=
  if ¬ jsTruthyStr prompt ∨ trimTS (prompt.getD "") = "" then
    (.error ERROR_PROMPT_REQUIRED, 0, 0)
  else
    match d.submitTaskId with
    | none => (.error "Unable to get task ID from response", 0, 0)
    | some taskId =>
      if ¬ jsTruthyStr (some taskId) then (.error "Unable to get task ID from response", 0, 0)
      else if asyncMode then (.ok (.taskOnly taskId), 0, 0)
      else
        match awaitVideoCompletion d.statusAt taskId with
        | (.error e, p, s) => (.error e, p, s)
        | (.ok fid, p, s) =>
          match d.retrieve fid with
          | none => (.error ("Unable to get download URL for file ID: " ++ fid), p, s)
          | some url =>
            if ¬ jsTruthyStr (some url) then
              (.error ("Unable to get download URL for file ID: " ++ fid), p, s)
            else if d.resourceMode = RESOURCE_MODE_URL then
              (.ok (.videoUrl url taskId), p, s)
            else if d.downloadOk then (.ok (.videoPath d.outputPath taskId), p, s)
            else (.error "Failed to download or save video: error", p, s)

/-! ### Image generation validation (`src/api/image.ts`,
`ImageAPI.generateImage`, lines 17–21) and the media-service wrapper
(`src/services/media-service.ts`, `MediaService.generateImage`). -/

/-- `MediaService.wrapError` / `MCPRestServer.wrapError`: prefix the message. -/
def wrapError (prefixMsg e : String) : String := prefixMsg ++ ": " ++ e

/-- The validation at the top of `ImageAPI.generateImage`:
`if (!request.prompt || request.prompt.trim() === '') throw ERROR_PROMPT_REQUIRED`;
on success the (abstract) remainder of the call is returned. -/
def imageGenerateImage (prompt : Option String) (restOfCall : Except String (List String)) :
    Except String (List String) :=
  if ¬ jsTruthyStr prompt ∨ trimTS (prompt.getD "") = "" then .error ERROR_PROMPT_REQUIRED
  else restOfCall

/-- `MediaService.generateImage`: delegates to `ImageAPI.generateImage` and
wraps any thrown error with the `Failed to generate image` prefix. -/
def mediaGenerateImage (prompt : Option String) (restOfCall : Except String (List String)) :
    Except String (List String) :=
  match imageGenerateImage prompt restOfCall with
  | .ok r => .ok r
  | .error e => .error (wrapError "Failed to generate image" e)

/-! ### REST dispatcher retry wrappers (`src/mcp-rest-server.ts`)

`MAX_RETRY_ATTEMPTS = 3` and `RETRY_DELAY = 1000` are literal in the source
(lines 385–386).  Each handler is `handleX(args, api, mediaService, attempt = 1)`;
on an exception it sleeps `RETRY_DELAY * 2^(attempt-1)` ms and recurses with
`attempt + 1` while `attempt < MAX_RETRY_ATTEMPTS`, else rethrows wrapped.
The underlying service call is modelled as a function from the attempt
number to its outcome. -/

def MAX_RETRY_ATTEMPTS : Nat := 3

/-- Base retry delay in milliseconds. -/
def RETRY_DELAY : Nat := 1000

/-- Trace of one run of a retry wrapper: final outcome, number of times the
underlying handler was invoked, and the list of backoff sleeps (ms) in
order. -/
structure RetryTrace (R : Type) where
  result : Except String R
  attemptsMade : Nat
  sleeps : List Nat
  deriving Repr

/-- The shared retry skeleton of `handleTextToAudio`, `handleListVoices`,
`handleTextToImage`, `handleGenerateVideo` and `handleImageToVideo`: all
five bodies are identical up to the invoked service call and the wrap
prefix. -/
def retryHandler (errPrefix : String) (call : Nat → Except String R) (attempt : Nat) :
    RetryTrace R :=
  match call attempt with
  | .ok r => ⟨.ok r, 1, []⟩
  | .error e =>
    if h : attempt < MAX_RETRY_ATTEMPTS then
      let rest := retryHandler errPrefix call (attempt + 1)
      ⟨rest.result, rest.attemptsMade + 1, (RETRY_DELAY * 2 ^ (attempt - 1)) :: rest.sleeps⟩
    else ⟨.error (wrapError errPrefix e), 1, []⟩
termination_by MAX_RETRY_ATTEMPTS - attempt
decreasing_by omega

/-- `MCPRestServer.handleTextToAudio` (lines 700–714). -/
def handleTextToAudio (call : Nat → Except String R) (attempt : Nat) : RetryTrace R :=
  retryHandler "Failed to generate speech" call attempt

/-- `MCPRestServer.handleTextToImage` (lines 757–771). -/
def handleTextToImage (call : Nat → Except String R) (attempt : Nat) : RetryTrace R :=
  retryHandler "Failed to generate image" call attempt

/-! ### Voice-clone handler (`MCPRestServer.handleVoiceClone`, lines 795–828) -/

/-- The identity-verification marker test of `handleVoiceClone` (lines
803–804): the error message contains `voice clone user forbidden` or
`should complete real-name verification`. -/
def isVerificationError (msg : String) : Bool :=
  strIncludes msg "voice clone user forbidden" ||
  strIncludes msg "should complete real-name verification"

/-- The advisory text returned by `handleVoiceClone` for a recognized
identity-verification error (lines 809–816). -/
def voiceCloneAdvisoryText : String :=
  "Voice cloning failed: Real-name verification required. To use voice cloning feature, please:\n\n1. Visit MiniMax platform (https://platform.minimaxi.com/user-center/basic-information)\n2. Complete the real-name verification process\n3. Try again after verification is complete\n\nThis requirement is for security and compliance purposes."

/-- Response of the voice-clone handler: either the service result or the
structured advisory content (a returned value, not a thrown error). -/
inductive VoiceCloneResponse (R : Type) where
  | result (r : R)
  | advisory (text : String)
  deriving Repr, DecidableEq

/-- `MCPRestServer.handleVoiceClone`: like the other retry wrappers, but an
error whose message carries a recognized identity-verification marker is
returned immediately as advisory content — before the retry check, so with
no further attempt and no backoff sleep. -/
def handleVoiceClone (call : Nat → Except String R) (attempt : Nat) :
    RetryTrace (VoiceCloneResponse R) :=
  match call attempt with
  | .ok r => ⟨.ok (.result r), 1, []⟩
  | .error e =>
    if isVerificationError e then ⟨.ok (.advisory voiceCloneAdvisoryText), 1, []⟩
    else if h : attempt < MAX_RETRY_ATTEMPTS then
      let rest := handleVoiceClone call (attempt + 1)
      ⟨rest.result, rest.attemptsMade + 1, (RETRY_DELAY * 2 ^ (attempt - 1)) :: rest.sleeps⟩
    else ⟨.error (wrapError "Failed to clone voice" e), 1, []⟩
termination_by MAX_RETRY_ATTEMPTS - attempt
decreasing_by omega

/-! ### SSE connection teardown (`src/mcp-sse-server.ts`,
`MCPSSEServer.closeConnection`, lines 825–853)

The session registry (`this.connections : Map<string, ConnectionInfo>`) is
modelled as an association list.  The side effects whose failure the claim
mentions — cancelling the heartbeat timer and writing the close-notification
frame — are supplied as `Except` values describing what those operations
would do.  In the source, the write sits in an inner `try` whose `catch`
swallows the error, the whole body sits in an outer `try` whose `catch`
swallows the error, and the registry `delete` is in `finally`; accordingly
the modelled body's outcome is computed and then discarded, and the delete
is unconditional. -/

/-- A registered SSE connection (`ConnectionInfo`); the fields beyond the
timer handle are irrelevant to teardown and abstracted to an id. -/
structure ConnInfo where
  hasHeartbeat : Bool := true
  transportId : Nat := 0
  lastActivityTime : Int := 0
  deriving Repr, DecidableEq

/-- The session registry. -/
abbrev Registry := List (String × ConnInfo)

/-- `this.connections.get(sessionId)`. -/
def Registry.find (reg : Registry) (sid : String) : Option ConnInfo :=
  (reg.filter (fun p => p.1 = sid)).head?.map (·.2)

/-- `this.connections.delete(sessionId)`. -/
def Registry.erase (reg : Registry) (sid : String) : Registry :=
  reg.filter (fun p => p.1 ≠ sid)

/-- The `try` body of `closeConnection`: cancel the heartbeat timer (an
exception here propagates to the outer `catch`), then attempt the
close-notification write inside an inner `try` whose `catch` discards the
error. -/
def closeBody (cancelResult writeResult : Except String Unit) : Except String Unit := do
  let _ ← cancelResult
  let _ : Unit := match writeResult with
    | .ok _ => ()
    | .error _ => ()
  pure ()

/-- `MCPSSEServer.closeConnection`: return immediately when the session is
not registered; otherwise run the teardown body (its outcome — success or
caught exception — is discarded) and unconditionally (`finally`) remove the
session from the registry.  The function is total: it never throws. -/
def closeConnection (cancelResult writeResult : Except String Unit)
    (reg : Registry) (sid : String) : Registry :=
  match reg.find sid with
  | none => reg
  | some _ =>
    let _bodyOutcome := closeBody cancelResult writeResult
    reg.erase sid

/-! ## Helper lemmas -/

/-- Skipped candidates (absent, or whose read/parse throws) leave the
configuration untouched. -/
theorem applyConfigFile_skip (cands : List FileCandidate) (c : Config)
    (h : ∀ f ∈ cands, f = none ∨ f = some (.error ())) :
    applyConfigFile cands c = c := by
  induction cands with
  | nil => rfl
  | cons f rest ih =>
    rcases h f (List.mem_cons_self f rest) with hf | hf <;> subst hf <;>
      exact ih fun g hg => h g (List.mem_cons_of_mem _ hg)

/-- Looking up an erased key fails. -/
theorem Registry.find_erase (reg : Registry) (sid : String) :
    (reg.erase sid).find sid = none := by
  have : (reg.erase sid).filter (fun p => p.1 = sid) = [] := by
    rw [List.filter_eq_nil_iff]
    intro p hp
    have := List.of_mem_filter hp
    simp at this ⊢
    exact this
  simp [Registry.find, this]

/-- Erasing a key not present in the registry is the identity. -/
theorem Registry.erase_of_find_none (reg : Registry) (sid : String)
    (h : reg.find sid = none) : reg.erase sid = reg := by
  rw [Registry.erase, List.filter_eq_self]
  intro p hp
  by_contra hne
  simp at hne
  have : (reg.filter (fun p => p.1 = sid)) ≠ [] := by
    intro hnil
    have := List.filter_eq_nil_iff.mp hnil p hp
    simp [hne] at this
  rcases List.exists_mem_of_ne_nil _ this with ⟨q, hq⟩
  cases hhead : (reg.filter (fun p => p.1 = sid)).head? with
  | none => exact absurd (List.head?_eq_none_iff.mp hhead) this
  | some q' => simp [Registry.find, hhead] at h

/-- The retry wrappers, entered at attempt `a`, never invoke the underlying
call more than `fuel + 1` times once `MAX_RETRY_ATTEMPTS - a ≤ fuel`. -/
theorem retryHandler_attempts_le_aux {R : Type} (errPrefix : String)
    (call : Nat → Except String R) :
    ∀ fuel attempt, MAX_RETRY_ATTEMPTS - attempt ≤ fuel →
      (retryHandler errPrefix call attempt).attemptsMade ≤ fuel + 1 := by
  intro fuel
  induction fuel with
  | zero =>
    intro attempt h
    unfold retryHandler
    cases hc : call attempt with
    | ok r => simp
    | error e =>
      have hge : ¬ attempt < MAX_RETRY_ATTEMPTS := by omega
      simp [hge]
  | succ n ih =>
    intro attempt h
    unfold retryHandler
    cases hc : call attempt with
    | ok r => simp
    | error e =>
      by_cases hlt : attempt < MAX_RETRY_ATTEMPTS
      · simp only [hlt, dif_pos]
        have hih := ih (attempt + 1) (by omega)
        show (retryHandler errPrefix call (attempt + 1)).attemptsMade + 1 ≤ n + 1 + 1
        omega
      · simp [hlt]


/-- A run of the polling loop over only non-terminal statuses from `attempt`
to the ceiling performs exactly one poll and one sleep per remaining
iteration and exits without a file id. -/
theorem videoPollFrom_nonterminal (statusAt : Nat → StatusResp) (tid : String) :
    ∀ k attempt, attempt + k = videoMaxRetries →
      (∀ i, attempt ≤ i → i < videoMaxRetries → nonTerminalStatus (statusAt i)) →
      videoPollFrom statusAt tid attempt = ⟨.ok none, k, k⟩ := by
  intro k
  induction k with
  | zero =>
    intro attempt hsum _
    unfold videoPollFrom
    have hge : ¬ attempt < videoMaxRetries := by omega
    simp [hge]
  | succ n ih =>
    intro attempt hsum hnt
    have hlt : attempt < videoMaxRetries := by omega
    obtain ⟨hf, hs⟩ := hnt attempt (le_refl _) hlt
    unfold videoPollFrom
    rw [dif_pos hlt]
    simp only [hf, hs, if_neg, if_false]
    rw [ih (attempt + 1) (by omega) (fun i h1 h2 => hnt i (by omega) h2)]


/-- A truthiness-guarded string write equals the defined-candidate fallback
form. -/
theorem truthy_write_str (o : Option String) (d : String) :
    (if jsTruthyStr o then o.getD "" else d) = (truthyOpt o).getD d := by
  cases o with
  | none => rfl
  | some v => by_cases hv : v = "" <;> simp [jsTruthyStr, truthyOpt, hv]

/-- A truthiness-guarded optional-string write equals the defined-candidate
fallback form. -/
theorem truthy_write_opt (o : Option String) (d : Option String) :
    (if jsTruthyStr o then o else d) = ((truthyOpt o).map some).getD d := by
  cases o with
  | none => rfl
  | some v => by_cases hv : v = "" <;> simp [jsTruthyStr, truthyOpt, hv]

/-- A truthiness-guarded parsed-port write equals the defined-candidate
fallback form. -/
theorem truthy_write_port (o : Option String) (d : Option JSNum) :
    (if jsTruthyStr o then some (parseIntTS (o.getD "")) else d) =
      ((truthyOpt o).map (fun v => some (parseIntTS v))).getD d := by
  cases o with
  | none => rfl
  | some v => by_cases hv : v = "" <;> simp [jsTruthyStr, truthyOpt, hv]

/-- A validity-guarded transport-mode write equals the defined-candidate
fallback form. -/
theorem mode_write (o : Option String) (d : Option String) :
    (if jsTruthyStr o ∧ isValidTransportMode (o.getD "") then o else d) =
      (modeCandidate o).getD d := by
  unfold modeCandidate
  split <;> rfl

/-- A Bool-guarded write equals the defined-candidate fallback form. -/
theorem guard_write {α : Type} (b : Bool) (v : α) (d : α) :
    (if b then v else d) = ((if b then some v else none).getD d) := by
  cases b <;> rfl

/-- The chain rule unfolds to `Option.getD`. -/
theorem overrideChain_cons {α : Type} (a : Option α) (l : List (Option α)) (d : α) :
    overrideChain (a :: l) d = a.getD (overrideChain l d) := by
  cases a <;> rfl

theorem applyConfigFile_apiKey (cands : List FileCandidate) (c : Config) :
    (applyConfigFile cands c).apiKey =
      ((fileLayer cands).bind fun p => truthyOpt p.apiKey).getD c.apiKey := by
  induction cands with
  | nil => rfl
  | cons f rest ih =>
    cases f with
    | none => simpa [applyConfigFile, fileLayer] using ih
    | some r =>
      cases r with
      | error e => simpa [applyConfigFile, fileLayer] using ih
      | ok p =>
        simp only [applyConfigFile, fileLayer, Option.bind_some]
        cases hps : p.server <;>
          simp [mergeConfig, hps, truthy_write_str]

theorem applyConfigFile_apiHost (cands : List FileCandidate) (c : Config) :
    (applyConfigFile cands c).apiHost =
      ((fileLayer cands).bind fun p => truthyOpt p.apiHost).getD c.apiHost := by
  induction cands with
  | nil => rfl
  | cons f rest ih =>
    cases f with
    | none => simpa [applyConfigFile, fileLayer] using ih
    | some r =>
      cases r with
      | error e => simpa [applyConfigFile, fileLayer] using ih
      | ok p =>
        simp only [applyConfigFile, fileLayer, Option.bind_some]
        cases hps : p.server <;>
          simp [mergeConfig, hps, truthy_write_str]

theorem applyConfigFile_basePath (cands : List FileCandidate) (c : Config) :
    (applyConfigFile cands c).basePath =
      (((fileLayer cands).bind fun p => truthyOpt p.basePath).map some).getD c.basePath := by
  induction cands with
  | nil => rfl
  | cons f rest ih =>
    cases f with
    | none => simpa [applyConfigFile, fileLayer] using ih
    | some r =>
      cases r with
      | error e => simpa [applyConfigFile, fileLayer] using ih
      | ok p =>
        simp only [applyConfigFile, fileLayer, Option.bind_some]
        cases hps : p.server <;>
          simp [mergeConfig, hps, truthy_write_opt]

theorem applyConfigFile_resourceMode (cands : List FileCandidate) (c : Config) :
    (applyConfigFile cands c).resourceMode =
      ((fileLayer cands).bind fun p => truthyOpt p.resourceMode).getD c.resourceMode := by
  induction cands with
  | nil => rfl
  | cons f rest ih =>
    cases f with
    | none => simpa [applyConfigFile, fileLayer] using ih
    | some r =>
      cases r with
      | error e => simpa [applyConfigFile, fileLayer] using ih
      | ok p =>
        simp only [applyConfigFile, fileLayer, Option.bind_some]
        cases hps : p.server <;>
          simp [mergeConfig, hps, truthy_write_str]

theorem applyConfigFile_port (cands : List FileCandidate) (c : Config) :
    (applyConfigFile cands c).server.port =
      ((fileLayer cands).bind fun p => p.server.bind fun sv =>
        if jsTruthyNum sv.port then some sv.port else none).getD c.server.port := by
  induction cands with
  | nil => rfl
  | cons f rest ih =>
    cases f with
    | none => simpa [applyConfigFile, fileLayer] using ih
    | some r =>
      cases r with
      | error e => simpa [applyConfigFile, fileLayer] using ih
      | ok p =>
        simp only [applyConfigFile, fileLayer, Option.bind_some]
        cases hps : p.server with
        | none => simp [mergeConfig, hps]
        | some sv =>
          simp [mergeConfig, hps]
          exact guard_write _ _ _

theorem applyConfigFile_endpoint (cands : List FileCandidate) (c : Config) :
    (applyConfigFile cands c).server.endpoint =
      ((fileLayer cands).bind fun p => p.server.bind fun sv =>
        if jsTruthyStr sv.endpoint then some sv.endpoint else none).getD
        c.server.endpoint := by
  induction cands with
  | nil => rfl
  | cons f rest ih =>
    cases f with
    | none => simpa [applyConfigFile, fileLayer] using ih
    | some r =>
      cases r with
      | error e => simpa [applyConfigFile, fileLayer] using ih
      | ok p =>
        simp only [applyConfigFile, fileLayer, Option.bind_some]
        cases hps : p.server with
        | none => simp [mergeConfig, hps]
        | some sv =>
          simp [mergeConfig, hps]
          exact guard_write _ _ _

theorem applyConfigFile_mode (cands : List FileCandidate) (c : Config) :
    (applyConfigFile cands c).server.mode =
      ((fileLayer cands).bind fun p => p.server.bind fun sv =>
        modeCandidate sv.mode).getD c.server.mode := by
  induction cands with
  | nil => rfl
  | cons f rest ih =>
    cases f with
    | none => simpa [applyConfigFile, fileLayer] using ih
    | some r =>
      cases r with
      | error e => simpa [applyConfigFile, fileLayer] using ih
      | ok p =>
        simp only [applyConfigFile, fileLayer, Option.bind_some]
        cases hps : p.server with
        | none => simp [mergeConfig, hps]
        | some sv => simp [mergeConfig, hps, mode_write]


/-- A presence-guarded optional write equals the defined-candidate fallback
form. -/
theorem isSome_write {α : Type} (o : Option α) (d : Option α) :
    (if o.isSome then o else d) = ((o.map some).getD d) := by
  cases o <;> rfl


/-- Auxiliary: the server field of an optionally-returned partial whose
server key is absent. -/
theorem getD_ite_server (c : Prop) [Decidable c] (cfg : ConfigPartial)
    (h : cfg.server = none) :
    ((if c then some cfg else none).getD {}).server = none := by
  split
  · exact h
  · rfl

/-! ## Claims -/

/-- **C6.** For every state of the configuration file — every candidate
absent (`existsSync` false), or present but empty/malformed so that the
read or `JSON.parse` throws — configuration resolution does not throw (the
embedding is a total function, every exception being caught inside
`applyConfigFile`) and returns exactly the configuration obtained with an
empty file layer: every other layer is applied normally. -/
theorem configFile_failure_is_empty_layer (rc dc : ConfigPartial) (env : Env)
    (argv : List String) (cands : List FileCandidate)
    (h : ∀ f ∈ cands, f = none ∨ f = some (.error ())) :
    getConfig rc dc { env := env, argv := argv, configFile := cands } =
      getConfig rc dc { env := env, argv := argv, configFile := [] } := by
  unfold getConfig
  simp only []
  rw [applyConfigFile_skip cands _ h]
  rfl

/-- Witness for C6 at a concrete input: one absent candidate and one
malformed candidate behave as the empty file layer. -/
theorem configFile_failure_is_empty_layer_witness :
    getConfig {} {} (World.mk {} [] [none, some (.error ())]) =
      getConfig {} {} (World.mk {} [] []) :=
  configFile_failure_is_empty_layer {} {} {} [] [none, some (.error ())]
    (by
      intro f hf
      rcases List.mem_cons.mp hf with h | h
      · exact Or.inl h
      · rcases List.mem_cons.mp h with h2 | h2
        · exact Or.inr h2
        · exact absurd h2 (List.not_mem_nil f))

/-- **C7.** Session teardown is idempotent and never throws (the embedding
of `closeConnection` is a total function into registries: every exception
of the body is caught).  For every session identifier and every outcome of
the heartbeat-timer cancellation and of the close-notification write —
including failing ones — (1) a single teardown unconditionally removes the
session from the registry, (2) tearing down an identifier that is not
registered (e.g. the second of two racing teardowns) is a no-op, and (3)
closing a second time yields the same registry as closing once. -/
theorem closeConnection_idempotent_removes :
    (∀ (cr wr : Except String Unit) (reg : Registry) (sid : String),
        (closeConnection cr wr reg sid).find sid = none) ∧
    (∀ (cr wr : Except String Unit) (reg : Registry) (sid : String),
        reg.find sid = none → closeConnection cr wr reg sid = reg) ∧
    (∀ (cr wr cr' wr' : Except String Unit) (reg : Registry) (sid : String),
        closeConnection cr' wr' (closeConnection cr wr reg sid) sid =
          closeConnection cr wr reg sid) := by
  have hremove : ∀ (cr wr : Except String Unit) (reg : Registry) (sid : String),
      (closeConnection cr wr reg sid).find sid = none := by
    intro cr wr reg sid
    unfold closeConnection
    cases h : reg.find sid with
    | none => exact h
    | some info => exact Registry.find_erase reg sid
  have hnoop : ∀ (cr wr : Except String Unit) (reg : Registry) (sid : String),
      reg.find sid = none → closeConnection cr wr reg sid = reg := by
    intro cr wr reg sid h
    unfold closeConnection
    rw [h]
  refine ⟨hremove, hnoop, ?_⟩
  intro cr wr cr' wr' reg sid
  exact hnoop cr' wr' _ sid (hremove cr wr reg sid)

/-- Witness for C7 at a concrete input: a one-session registry, with both
the timer cancellation and the notification write failing. -/
theorem closeConnection_idempotent_removes_witness :
    ((closeConnection (.error "timer") (.error "write")
        [("s1", {})] "s1").find "s1" = none) ∧
    (closeConnection (.error "timer") (.error "write")
        ([] : Registry) "s1" = []) ∧
    (closeConnection (.error "timer") (.error "write")
        (closeConnection (.error "timer") (.error "write") [("s1", {})] "s1") "s1" =
      closeConnection (.error "timer") (.error "write") [("s1", {})] "s1") :=
  ⟨closeConnection_idempotent_removes.1 _ _ _ _,
   closeConnection_idempotent_removes.2.1 _ _ _ _ (by rfl),
   closeConnection_idempotent_removes.2.2 _ _ _ _ _ _⟩

/-- **C3.** For every tool handler wrapped in the REST dispatcher's retry
policy (modelled by the shared skeleton `retryHandler`, instantiated here at
`handleTextToAudio`): a call failing on attempts 1 and 2 and succeeding on
attempt 3 returns the attempt-3 result after backoff sleeps of exactly
1000 ms before the second attempt and 2000 ms before the third; a call
failing on all 3 attempts surfaces the attempt-3 error (wrapped with the
handler's prefix) after the same backoffs; and, entered at the source's
initial attempt number 1, no execution makes a 4th attempt. -/
theorem dispatcher_retry_policy :
    (∀ (R : Type) (call : Nat → Except String R) (e1 e2 : String) (r : R),
       call 1 = .error e1 → call 2 = .error e2 → call 3 = .ok r →
       handleTextToAudio call 1 = ⟨.ok r, 3, [1000, 2000]⟩) ∧
    (∀ (R : Type) (call : Nat → Except String R) (e1 e2 e3 : String),
       call 1 = .error e1 → call 2 = .error e2 → call 3 = .error e3 →
       handleTextToAudio call 1 =
         ⟨.error (wrapError "Failed to generate speech" e3), 3, [1000, 2000]⟩) ∧
    (∀ (R : Type) (call : Nat → Except String R),
       (handleTextToAudio call 1).attemptsMade ≤ MAX_RETRY_ATTEMPTS) := by
  refine ⟨?_, ?_, ?_⟩
  · intro R call e1 e2 r h1 h2 h3
    unfold handleTextToAudio
    unfold retryHandler
    rw [h1]
    unfold retryHandler
    rw [h2]
    unfold retryHandler
    rw [h3]
    simp [MAX_RETRY_ATTEMPTS, RETRY_DELAY]
  · intro R call e1 e2 e3 h1 h2 h3
    unfold handleTextToAudio
    unfold retryHandler
    rw [h1]
    unfold retryHandler
    rw [h2]
    unfold retryHandler
    rw [h3]
    simp [MAX_RETRY_ATTEMPTS, RETRY_DELAY]
  · intro R call
    have h3 := retryHandler_attempts_le_aux "Failed to generate speech" call 2 1
      (by norm_num [MAX_RETRY_ATTEMPTS])
    unfold handleTextToAudio
    exact h3.trans (by norm_num [MAX_RETRY_ATTEMPTS])

/-- Witness for C3 at concrete inputs: a call failing twice then returning
`7`, and a call failing three times. -/
theorem dispatcher_retry_policy_witness :
    (handleTextToAudio (fun i => if i < 3 then .error "boom" else .ok (7 : Nat)) 1 =
      ⟨.ok 7, 3, [1000, 2000]⟩) ∧
    (handleTextToAudio (fun i : Nat => (.error (toString i) : Except String Nat)) 1 =
      ⟨.error (wrapError "Failed to generate speech" "3"), 3, [1000, 2000]⟩) :=
  ⟨dispatcher_retry_policy.1 Nat _ "boom" "boom" 7 (by norm_num) (by norm_num) (by norm_num),
   dispatcher_retry_policy.2.1 Nat _ "1" "2" "3" rfl rfl rfl⟩

/-- **C4.** For every voice-clone invocation whose underlying error message
carries a recognized identity-verification marker on some attempt
`k ≤ MAX_RETRY_ATTEMPTS` (earlier attempts having failed without the
marker): the handler returns — as a value, not a thrown error — the
structured advisory text, the marker attempt is the last one made (no
further retry), and exactly the `k - 1` backoff sleeps that preceded the
marker attempt were performed (no backoff after the marker appears). -/
theorem voice_clone_verification_bypasses_retry :
    ∀ (R : Type) (call : Nat → Except String R) (k : Nat) (e : String),
      1 ≤ k → k ≤ MAX_RETRY_ATTEMPTS →
      (∀ i, 1 ≤ i → i < k → ∃ ei, call i = .error ei ∧ isVerificationError ei = false) →
      call k = .error e → isVerificationError e = true →
      (handleVoiceClone call 1).result = .ok (.advisory voiceCloneAdvisoryText) ∧
      (handleVoiceClone call 1).attemptsMade = k ∧
      (handleVoiceClone call 1).sleeps.length = k - 1 := by
  intro R call k e hk1 hk3 hprev hek hverif
  have hmax : MAX_RETRY_ATTEMPTS = 3 := rfl
  rw [hmax] at hk3
  interval_cases k
  · unfold handleVoiceClone
    rw [hek]
    simp [hverif]
  · obtain ⟨e1, hc1, hv1⟩ := hprev 1 (by omega) (by omega)
    unfold handleVoiceClone
    rw [hc1]
    unfold handleVoiceClone
    rw [hek]
    simp [hv1, hverif, MAX_RETRY_ATTEMPTS]
  · obtain ⟨e1, hc1, hv1⟩ := hprev 1 (by omega) (by omega)
    obtain ⟨e2, hc2, hv2⟩ := hprev 2 (by omega) (by omega)
    unfold handleVoiceClone
    rw [hc1]
    unfold handleVoiceClone
    rw [hc2]
    unfold handleVoiceClone
    rw [hek]
    simp [hv1, hv2, hverif, MAX_RETRY_ATTEMPTS]

/-- Witness for C4 at a concrete input: the marker appears on attempt 1 and
the advisory is returned with no retry and no backoff sleep. -/
theorem voice_clone_verification_bypasses_retry_witness :
    ((handleVoiceClone (fun _ : Nat =>
        (.error "voice clone user forbidden" : Except String Nat)) 1).result =
      .ok (.advisory voiceCloneAdvisoryText)) ∧
    ((handleVoiceClone (fun _ : Nat =>
        (.error "voice clone user forbidden" : Except String Nat)) 1).attemptsMade = 1) ∧
    ((handleVoiceClone (fun _ : Nat =>
        (.error "voice clone user forbidden" : Except String Nat)) 1).sleeps.length = 1 - 1) :=
  voice_clone_verification_bypasses_retry Nat _ 1 "voice clone user forbidden"
    (le_refl 1) (by norm_num [MAX_RETRY_ATTEMPTS])
    (by intro i h1 h2; omega) rfl (by decide)


/-- **C2.** The video-generation polling loop: with statuses
`[Processing, Processing, Success]` and a present (truthy) `file_id`, the
wait phase returns the file id after exactly 2 non-terminal polls (3 status
queries, 2 sleeps) and the surrounding `generateVideo` then proceeds to
retrieval, returning the retrieved download URL in `url` mode; with 30
consecutive non-terminal statuses it returns the timeout-style error after
exactly 30 status queries (never more); `Success` with an absent `file_id`
raises an error distinct from the one raised on status `Fail`; the sleep
between polls is the fixed 20-second interval and the ceiling is 30
attempts. -/
theorem video_polling_state_machine :
    (∀ (statusAt : Nat → StatusResp) (tid fid : String),
       nonTerminalStatus (statusAt 0) → nonTerminalStatus (statusAt 1) →
       statusAt 2 = ⟨some "Success", some fid⟩ → fid ≠ "" →
       awaitVideoCompletion statusAt tid = (.ok fid, 3, 2)) ∧
    (∀ (statusAt : Nat → StatusResp) (tid fid url prompt : String)
       (retrieve : String → Option String),
       nonTerminalStatus (statusAt 0) → nonTerminalStatus (statusAt 1) →
       statusAt 2 = ⟨some "Success", some fid⟩ → fid ≠ "" → tid ≠ "" →
       retrieve fid = some url → url ≠ "" → trimTS prompt ≠ "" → prompt ≠ "" →
       generateVideo (some prompt) false
         { submitTaskId := some tid, statusAt := statusAt, retrieve := retrieve,
           resourceMode := RESOURCE_MODE_URL } =
         (.ok (.videoUrl url tid), 3, 2)) ∧
    (∀ (statusAt : Nat → StatusResp) (tid : String),
       (∀ i, i < videoMaxRetries → nonTerminalStatus (statusAt i)) →
       awaitVideoCompletion statusAt tid = (.error (videoTimeoutMsg tid), 30, 30)) ∧
    (∀ (statusAt : Nat → StatusResp) (tid : String),
       statusAt 0 = ⟨some "Success", none⟩ →
       awaitVideoCompletion statusAt tid = (.error (videoMissingFileIdMsg tid), 1, 0)) ∧
    (∀ (statusAt : Nat → StatusResp) (tid : String),
       (statusAt 0).status = some "Fail" →
       awaitVideoCompletion statusAt tid = (.error (videoFailMsg tid), 1, 0)) ∧
    (∀ tid, videoMissingFileIdMsg tid ≠ videoFailMsg tid) ∧
    videoRetryInterval = 20 ∧ videoMaxRetries = 30 := by
  have hloop : ∀ (statusAt : Nat → StatusResp) (tid fid : String),
      nonTerminalStatus (statusAt 0) → nonTerminalStatus (statusAt 1) →
      statusAt 2 = ⟨some "Success", some fid⟩ → fid ≠ "" →
      videoPollFrom statusAt tid 0 = ⟨.ok (some fid), 3, 2⟩ := by
    intro statusAt tid fid h0 h1 h2 hfid
    obtain ⟨hf0, hs0⟩ := h0
    obtain ⟨hf1, hs1⟩ := h1
    unfold videoPollFrom
    rw [dif_pos (by norm_num [videoMaxRetries])]
    simp only [hf0, hs0, if_neg, if_false]
    unfold videoPollFrom
    rw [dif_pos (by norm_num [videoMaxRetries])]
    simp only [hf1, hs1, if_neg, if_false]
    unfold videoPollFrom
    rw [dif_pos (by norm_num [videoMaxRetries])]
    rw [h2]
    simp [jsTruthyStr, hfid]
  refine ⟨?_, ?_, ?_, ?_, ?_, ?_, rfl, rfl⟩
  · intro statusAt tid fid h0 h1 h2 hfid
    unfold awaitVideoCompletion
    rw [hloop statusAt tid fid h0 h1 h2 hfid]
  · intro statusAt tid fid url prompt retrieve h0 h1 h2 hfid htid hre hurl htrim hp
    have hawait : awaitVideoCompletion statusAt tid = (.ok fid, 3, 2) := by
      unfold awaitVideoCompletion
      rw [hloop statusAt tid fid h0 h1 h2 hfid]
    unfold generateVideo
    simp [jsTruthyStr, hp, htrim, htid, hawait, hre, hurl, RESOURCE_MODE_URL]
  · intro statusAt tid hnt
    unfold awaitVideoCompletion
    rw [videoPollFrom_nonterminal statusAt tid 30 0 (by norm_num [videoMaxRetries])
      (fun i _ h2 => hnt i h2)]
  · intro statusAt tid h0
    unfold awaitVideoCompletion
    unfold videoPollFrom
    rw [dif_pos (by norm_num [videoMaxRetries])]
    simp [h0, jsTruthyStr]
  · intro statusAt tid h0
    unfold awaitVideoCompletion
    unfold videoPollFrom
    rw [dif_pos (by norm_num [videoMaxRetries])]
    simp [h0]
  · intro tid h
    have hd := congrArg String.data h
    rw [videoMissingFileIdMsg, videoFailMsg] at hd
    simp [String.congr_append] at hd

/-- Witness for C2 at concrete inputs: task `t-1` with statuses
`[Processing, Processing, Success (file r-1)]`, retrieval resolving `r-1`
to a download URL; a 30-times-`Processing` run; and a `Success`-without-id
run. -/
theorem video_polling_state_machine_witness :
    (awaitVideoCompletion
        (fun i => if i < 2 then ⟨some "Processing", none⟩ else ⟨some "Success", some "r-1"⟩)
        "t-1" = (.ok "r-1", 3, 2)) ∧
    (generateVideo (some "a cat") false
        { submitTaskId := some "t-1",
          statusAt := fun i =>
            if i < 2 then ⟨some "Processing", none⟩ else ⟨some "Success", some "r-1"⟩,
          retrieve := fun f => if f = "r-1" then some "https://dl/u.mp4" else none,
          resourceMode := RESOURCE_MODE_URL } =
      (.ok (.videoUrl "https://dl/u.mp4" "t-1"), 3, 2)) ∧
    (awaitVideoCompletion (fun _ => ⟨some "Processing", none⟩) "t-1" =
      (.error (videoTimeoutMsg "t-1"), 30, 30)) ∧
    (awaitVideoCompletion (fun _ => ⟨some "Success", none⟩) "t-1" =
      (.error (videoMissingFileIdMsg "t-1"), 1, 0)) :=
  ⟨video_polling_state_machine.1 _ "t-1" "r-1" (by constructor <;> simp)
      (by constructor <;> simp) (by norm_num) (by decide),
   video_polling_state_machine.2.1 _ "t-1" "r-1" "https://dl/u.mp4" "a cat" _
      (by constructor <;> simp) (by constructor <;> simp) (by norm_num) (by decide)
      (by decide) (by norm_num) (by decide) (by decide) (by decide),
   video_polling_state_machine.2.2.1 _ "t-1"
      (fun i _ => by constructor <;> simp),
   video_polling_state_machine.2.2.2.1 _ "t-1" rfl⟩


/-- A call that fails identically on every attempt drives a retry wrapper
entered at attempt 1 through all three attempts and both backoff sleeps. -/
theorem retryHandler_const_error {R : Type} (errPrefix e : String)
    (call : Nat → Except String R) (hc : ∀ i, call i = .error e) :
    retryHandler errPrefix call 1 = ⟨.error (wrapError errPrefix e), 3, [1000, 2000]⟩ := by
  unfold retryHandler
  rw [hc 1]
  unfold retryHandler
  rw [hc 2]
  unfold retryHandler
  rw [hc 3]
  simp [MAX_RETRY_ATTEMPTS, RETRY_DELAY]

/-- **C8 counterexample.** At the concrete invocation `prompt = ""` (missing
required argument), the REST dispatcher's image handler does NOT surface the
validation error without re-invoking or sleeping: it invokes the underlying
call 3 times, sleeps the 1000 ms and 2000 ms backoffs, and only then
surfaces the (twice-wrapped) validation error. -/
theorem validation_error_retried_ce :
    handleTextToImage (fun _ => mediaGenerateImage (some "") (.ok [])) 1 =
      ⟨.error (wrapError "Failed to generate image"
          (wrapError "Failed to generate image" ERROR_PROMPT_REQUIRED)), 3, [1000, 2000]⟩ := by
  unfold handleTextToImage
  exact retryHandler_const_error _ _ _ (fun i => rfl)

/-- **C8 (amended).** For every invocation whose image-generation prompt
fails validation (absent, empty, or whitespace-only), the REST dispatcher
does NOT treat the validation error as fatal: the wrapped call is retried
like any other failure — 3 attempts in total with 1000 ms and 2000 ms
backoff sleeps — and the validation error (wrapped by the media service and
again by the dispatcher) is surfaced only after the final attempt. -/
theorem validation_error_retried (prompt : Option String)
    (rest : Except String (List String))
    (h : ¬ jsTruthyStr prompt = true ∨ trimTS (prompt.getD "") = "") :
    handleTextToImage (fun _ => mediaGenerateImage prompt rest) 1 =
      ⟨.error (wrapError "Failed to generate image"
          (wrapError "Failed to generate image" ERROR_PROMPT_REQUIRED)), 3, [1000, 2000]⟩ := by
  have hc : ∀ i : Nat, mediaGenerateImage prompt rest =
      .error (wrapError "Failed to generate image" ERROR_PROMPT_REQUIRED) := by
    intro i
    unfold mediaGenerateImage imageGenerateImage
    rw [if_pos h]
  unfold handleTextToImage
  exact retryHandler_const_error _ _ _ hc

/-- Witness for C8 (amended) at a concrete input: a whitespace-only prompt. -/
theorem validation_error_retried_witness :
    handleTextToImage (fun _ => mediaGenerateImage (some " ") (.ok [])) 1 =
      ⟨.error (wrapError "Failed to generate image"
          (wrapError "Failed to generate image" ERROR_PROMPT_REQUIRED)), 3, [1000, 2000]⟩ :=
  validation_error_retried (some " ") (.ok []) (Or.inr (by decide))

/-- **C1 counterexample.** Concrete input: launch arguments `--port 9000`
(the launch-argument layer defines `server.port`, and the compiled-in
default layer defines it too), and a per-invocation override carrying only
`server.endpoint`.  Without the override, the resolved `server.port` is
9000; with the override — which does NOT define `server.port` — the
resolved `server.port` is `undefined` (neither the launch-argument value
nor any other layer's), because the override's partial `server` object
replaces the whole server descriptor.  This falsifies the per-field
resolution invariant as stated. -/
theorem config_precedence_ce :
    ((getConfig {} {} (World.mk {} ["--port", "9000"] [])).server.port =
        some (some 9000)) ∧
    ((getConfig { server := some { endpoint := some "/x" } } {}
        (World.mk {} ["--port", "9000"] [])).server.port = none) ∧
    (none : Option JSNum) ≠ some (some 9000) :=
  ⟨by decide, by decide, by decide⟩


/-- **C1 (amended).** The per-field resolution invariant holds exactly for
the four top-level scalar fields: each resolves to the value of the
highest-precedence layer that defines it (per-invocation override,
launch arguments, environment, configuration file, `defaultConfig`
argument), falling back to the compiled-in default.  For the `server`
sub-fields (port, endpoint, mode) it holds only when the per-invocation
override defines no `server` object; when the override carries a `server`
object, that object replaces the resolved server descriptor wholesale, so
sub-fields the override omits become undefined instead of inheriting
lower-layer values. -/
theorem config_precedence_amended (rc dc : ConfigPartial) (w : World) :
    ((getConfig rc dc w).apiKey =
      overrideChain [rc.apiKey, cliCandidate w.argv "api-key", truthyOpt w.env.apiKey,
        (fileLayer w.configFile).bind (fun p => truthyOpt p.apiKey), dc.apiKey] "") ∧
    ((getConfig rc dc w).apiHost =
      overrideChain [rc.apiHost, cliCandidate w.argv "api-host", truthyOpt w.env.apiHost,
        (fileLayer w.configFile).bind (fun p => truthyOpt p.apiHost), dc.apiHost]
        DEFAULT_API_HOST) ∧
    ((getConfig rc dc w).basePath =
      overrideChain [rc.basePath.map some, (cliCandidate w.argv "base-path").map some,
        (truthyOpt w.env.basePath).map some,
        ((fileLayer w.configFile).bind (fun p => truthyOpt p.basePath)).map some,
        dc.basePath.map some] w.env.basePath) ∧
    ((getConfig rc dc w).resourceMode =
      overrideChain [rc.resourceMode, cliCandidate w.argv "resource-mode",
        truthyOpt w.env.resourceMode,
        (fileLayer w.configFile).bind (fun p => truthyOpt p.resourceMode),
        dc.resourceMode] RESOURCE_MODE_URL) ∧
    (rc.server = none →
      ((getConfig rc dc w).server.port =
        overrideChain [(cliCandidate w.argv "port").map (fun v => some (parseIntTS v)),
          (truthyOpt w.env.serverPort).map (fun v => some (parseIntTS v)),
          (fileLayer w.configFile).bind (fun p => p.server.bind (fun sv =>
            if jsTruthyNum sv.port then some sv.port else none))]
          ((dc.server.getD (baseConfig w.env.basePath).server).port)) ∧
      ((getConfig rc dc w).server.endpoint =
        overrideChain [(cliCandidate w.argv "endpoint").map some,
          (truthyOpt w.env.serverEndpoint).map some,
          (fileLayer w.configFile).bind (fun p => p.server.bind (fun sv =>
            if jsTruthyStr sv.endpoint then some sv.endpoint else none))]
          ((dc.server.getD (baseConfig w.env.basePath).server).endpoint)) ∧
      ((getConfig rc dc w).server.mode =
        overrideChain [modeCandidate (findCliArg (parseCliArgs w.argv) "mode"),
          modeCandidate w.env.transportMode,
          (fileLayer w.configFile).bind (fun p => p.server.bind (fun sv =>
            modeCandidate sv.mode))]
          ((dc.server.getD (baseConfig w.env.basePath).server).mode))) ∧
    (∀ s, rc.server = some s → (getConfig rc dc w).server = s) := by
  refine ⟨?_, ?_, ?_, ?_, ?_, ?_⟩
  · simp only [getConfig, objectAssign, applyCliArgs, applyEnvVars]
    rw [applyConfigFile_apiKey]
    simp only [objectAssign, baseConfig, truthy_write_str, overrideChain_cons,
      overrideChain, cliCandidate]
  · simp only [getConfig, objectAssign, applyCliArgs, applyEnvVars]
    rw [applyConfigFile_apiHost]
    simp only [objectAssign, baseConfig, truthy_write_str, overrideChain_cons,
      overrideChain, cliCandidate]
  · simp only [getConfig, objectAssign, applyCliArgs, applyEnvVars]
    rw [applyConfigFile_basePath]
    simp only [objectAssign, baseConfig, truthy_write_opt, isSome_write,
      overrideChain_cons, overrideChain, cliCandidate]
  · simp only [getConfig, objectAssign, applyCliArgs, applyEnvVars]
    rw [applyConfigFile_resourceMode]
    simp only [objectAssign, baseConfig, truthy_write_str, overrideChain_cons,
      overrideChain, cliCandidate]
  · intro hrc
    refine ⟨?_, ?_, ?_⟩
    · simp only [getConfig, objectAssign, applyCliArgs, applyEnvVars, hrc]
      rw [applyConfigFile_port]
      simp only [truthy_write_port, overrideChain_cons, overrideChain, cliCandidate,
        Option.getD_none]
    · simp only [getConfig, objectAssign, applyCliArgs, applyEnvVars, hrc]
      rw [applyConfigFile_endpoint]
      simp only [truthy_write_opt, overrideChain_cons, overrideChain, cliCandidate,
        Option.getD_none]
    · simp only [getConfig, objectAssign, applyCliArgs, applyEnvVars, hrc]
      rw [applyConfigFile_mode]
      simp only [mode_write, overrideChain_cons, overrideChain, cliCandidate,
        Option.getD_none]
  · intro sv hs
    simp [getConfig, objectAssign, hs]


/-- **C5.** A per-invocation override that defines no `server` object leaves
the already-configured server descriptor (port, endpoint, mode) unchanged
in the resolved configuration: (1) resolution with such an override yields
the same server descriptor as resolution with an empty override; (2) the
request-level merge step itself preserves the server object; (3) the
extractor builds such an override — it omits the `server` key entirely —
whenever the metadata carrier supplies no (truthy) server sub-field. -/
theorem override_without_server_preserves_server :
    (∀ (rc dc : ConfigPartial) (w : World), rc.server = none →
       (getConfig rc dc w).server = (getConfig {} dc w).server) ∧
    (∀ (c : Config) (rc : ConfigPartial), rc.server = none →
       (objectAssign c rc).server = c.server) ∧
    (∀ m : MetaAuth,
       jsTruthyStr m.server_port = false → jsTruthyStr m.server_endpoint = false →
       jsTruthyStr m.server_mode = false → jsTruthyStr m.serverPort = false →
       jsTruthyStr m.serverEndpoint = false → jsTruthyStr m.serverMode = false →
       ((extractConfigFromMetaAuth m).getD {}).server = none) := by
  refine ⟨?_, ?_, ?_⟩
  · intro rc dc w hrc
    simp [getConfig, objectAssign, hrc]
  · intro c rc hrc
    simp [objectAssign, hrc]
  · intro m h1 h2 h3 h4 h5 h6
    unfold extractConfigFromMetaAuth
    simp only [h1, h2, h3, h4, h5, h6, Bool.false_eq_true, false_and, if_false,
      ite_false, Option.isSome_none, Bool.or_self]
    exact getD_ite_server _ _ rfl

/-- Witness for C5 at a concrete input: an override carrying only a
credential (no server sub-fields) resolves to the same server descriptor
as the empty override, and the extractor omits `server` for a carrier with
only `api_key`. -/
theorem override_without_server_preserves_server_witness :
    ((getConfig { apiKey := some "k" } {} (World.mk {} ["--port", "9000"] [])).server =
      (getConfig {} {} (World.mk {} ["--port", "9000"] [])).server) ∧
    (((extractConfigFromMetaAuth { api_key := some "k" }).getD {}).server = none) :=
  ⟨override_without_server_preserves_server.1 { apiKey := some "k" } {}
      (World.mk {} ["--port", "9000"] []) rfl,
   override_without_server_preserves_server.2.2
      { api_key := some "k" } (by decide) (by decide) (by decide) (by decide)
      (by decide) (by decide)⟩

/-- **C9 counterexample.** Key aliasing is NOT case-insensitive: at the
concrete input `--API-KEY k1` — an uppercase variant of the same logical
key — the launch-argument layer leaves the configuration untouched (the
credential stays the empty default), while the kebab-case spelling
`--api-key k1` sets it. -/
theorem key_alias_case_insensitive_ce :
    (applyCliArgs ["--API-KEY", "k1"] (baseConfig none) = baseConfig none) ∧
    ((applyCliArgs ["--api-key", "k1"] (baseConfig none)).apiKey = "k1") ∧
    (baseConfig none).apiKey ≠ "k1" :=
  ⟨by decide, by decide, by decide⟩

/-- **C9 (amended).** For every logical configuration key, both supported
spelling conventions are accepted and map to the same resolved field, with
exact-spelling (case-sensitive) matching: the launch-argument lookup
accepts the kebab-case and the camelCase spelling of each key with
identical effect (shown for any non-flag value `v`), and the
per-invocation metadata carrier accepts the underscore-separated and the
camelCase key with identical extracted configuration — hence identical
effect on the resolved configuration. -/
theorem key_alias_both_conventions (v : String) (hv : v ≠ "")
    (hvf : strStartsWith v "--" = false) :
    (∀ c : Config,
      applyCliArgs ["--api-key", v] c = applyCliArgs ["--apiKey", v] c ∧
      applyCliArgs ["--api-host", v] c = applyCliArgs ["--apiHost", v] c ∧
      applyCliArgs ["--base-path", v] c = applyCliArgs ["--basePath", v] c ∧
      applyCliArgs ["--resource-mode", v] c = applyCliArgs ["--resourceMode", v] c) ∧
    (extractConfigFromMetaAuth { api_key := some v } =
      extractConfigFromMetaAuth { apiKey := some v }) ∧
    (extractConfigFromMetaAuth { api_host := some v } =
      extractConfigFromMetaAuth { apiHost := some v }) ∧
    (extractConfigFromMetaAuth { base_path := some v } =
      extractConfigFromMetaAuth { basePath := some v }) ∧
    (extractConfigFromMetaAuth { resource_mode := some v } =
      extractConfigFromMetaAuth { resourceMode := some v }) ∧
    (extractConfigFromMetaAuth { server_port := some v } =
      extractConfigFromMetaAuth { serverPort := some v }) ∧
    (extractConfigFromMetaAuth { server_endpoint := some v } =
      extractConfigFromMetaAuth { serverEndpoint := some v }) ∧
    (extractConfigFromMetaAuth { server_mode := some v } =
      extractConfigFromMetaAuth { serverMode := some v }) ∧
    (∀ (rc dc : ConfigPartial) (env : Env) (cands : List FileCandidate),
      getConfig rc dc (World.mk env ["--api-key", v] cands) =
      getConfig rc dc (World.mk env ["--apiKey", v] cands)) := by
  have hcli : ∀ c : Config,
      applyCliArgs ["--api-key", v] c = applyCliArgs ["--apiKey", v] c ∧
      applyCliArgs ["--api-host", v] c = applyCliArgs ["--apiHost", v] c ∧
      applyCliArgs ["--base-path", v] c = applyCliArgs ["--basePath", v] c ∧
      applyCliArgs ["--resource-mode", v] c = applyCliArgs ["--resourceMode", v] c := by
    intro c
    refine ⟨?_, ?_, ?_, ?_⟩ <;>
      simp [applyCliArgs, parseCliArgs, parseCliArgsAux, ArgsRecord.set,
        ArgsRecord.empty, findCliArg, jsOrStr, jsTruthyStr, hv, hvf,
        show ∀ a : String, a ∈ ["--api-key", "--apiKey", "--api-host", "--apiHost",
          "--base-path", "--basePath", "--resource-mode", "--resourceMode"] →
          strStartsWith a "--" = true from by decide,
        show strDrop "--api-key" 2 = "api-key" from by decide,
        show strDrop "--apiKey" 2 = "apiKey" from by decide,
        show strDrop "--api-host" 2 = "api-host" from by decide,
        show strDrop "--apiHost" 2 = "apiHost" from by decide,
        show strDrop "--base-path" 2 = "base-path" from by decide,
        show strDrop "--basePath" 2 = "basePath" from by decide,
        show strDrop "--resource-mode" 2 = "resource-mode" from by decide,
        show strDrop "--resourceMode" 2 = "resourceMode" from by decide,
        show kebabCase "api-key" = "api-key" from by decide,
        show camelCase "api-key" = "apiKey" from by decide,
        show kebabCase "api-host" = "api-host" from by decide,
        show camelCase "api-host" = "apiHost" from by decide,
        show kebabCase "base-path" = "base-path" from by decide,
        show camelCase "base-path" = "basePath" from by decide,
        show kebabCase "resource-mode" = "resource-mode" from by decide,
        show camelCase "resource-mode" = "resourceMode" from by decide,
        show kebabCase "port" = "port" from by decide,
        show camelCase "port" = "port" from by decide,
        show kebabCase "endpoint" = "endpoint" from by decide,
        show camelCase "endpoint" = "endpoint" from by decide,
        show kebabCase "mode" = "mode" from by decide,
        show camelCase "mode" = "mode" from by decide]
  refine ⟨hcli, ?_, ?_, ?_, ?_, ?_, ?_, ?_, ?_⟩
  · simp [extractConfigFromMetaAuth, jsTruthyStr, hv]
  · simp [extractConfigFromMetaAuth, jsTruthyStr, hv]
  · simp [extractConfigFromMetaAuth, jsTruthyStr, hv]
  · simp [extractConfigFromMetaAuth, jsTruthyStr, hv]
  · simp [extractConfigFromMetaAuth, jsTruthyStr, hv]
  · simp [extractConfigFromMetaAuth, jsTruthyStr, hv]
  · simp [extractConfigFromMetaAuth, jsTruthyStr, hv]
  · intro rc dc env cands
    exact congrArg (fun cfg => objectAssign cfg rc) ((hcli _).1)

/-- Witness for C9 (amended) at the concrete value `k1`. -/
theorem key_alias_both_conventions_witness :
    (applyCliArgs ["--api-key", "k1"] (baseConfig none) =
      applyCliArgs ["--apiKey", "k1"] (baseConfig none)) ∧
    (extractConfigFromMetaAuth { api_key := some "k1" } =
      extractConfigFromMetaAuth { apiKey := some "k1" }) :=
  ⟨(key_alias_both_conventions "k1" (by decide) (by decide)).1 (baseConfig none) |>.1,
   (key_alias_both_conventions "k1" (by decide) (by decide)).2.1⟩


/-- Witness for C1 (amended) at a concrete input: an override defining only
the credential, launch arguments defining the port. -/
theorem config_precedence_amended_witness :
    ((getConfig { apiKey := some "k" } {} (World.mk {} ["--port", "9000"] [])).apiKey =
      "k") ∧
    ((getConfig { apiKey := some "k" } {} (World.mk {} ["--port", "9000"] [])).server.port =
      some (some 9000)) := by
  have h := config_precedence_amended { apiKey := some "k" } {}
    (World.mk {} ["--port", "9000"] [])
  constructor
  · rw [h.1]
    decide
  · rw [(h.2.2.2.2.1 rfl).1]
    decide


end MiniMaxMCP
